import Mathlib

/-!
Verification of the `cvs_cell` crate (src/src/lib.rs).

The crate defines `CvsCell<T>`, a `Cell`-like wrapper around
`UnsafeCell<T>` whose reads and writes are volatile.  Volatility only
constrains the compiler's optimizer; the functional behaviour of every
operation is that of a plain single-slot mutable cell, which is what the
shallow embedding below captures.  Stateful methods (`set`, `update`)
become explicit state passing: a method taking `&self` and mutating the
slot is a function from the pre-state cell to the post-state cell.
`as_ptr` returns the address of the storage slot; since `CvsCell` is
`#[repr(transparent)]` over `UnsafeCell<T>`, that address is the address
of the cell itself, which the embedding passes in explicitly as `addr`.
-/

/-- Embedding of `core::cell::UnsafeCell<T>`: a single storage slot
holding exactly one value of type `T`. -/
structure UnsafeCell (T : Type) where
  inner : T
deriving Repr, DecidableEq

/-- Embedding of `UnsafeCell::into_inner`, which unwraps the slot. -/
def UnsafeCell.into_inner {T : Type} (u : UnsafeCell T) : T :=
  u.inner

/-- Embedding of `CvsCell<T>` (src/src/lib.rs lines 77-80):
`pub struct CvsCell<T> { value: UnsafeCell<T> }`. -/
structure CvsCell (T : Type) where
  value : UnsafeCell T
deriving Repr, DecidableEq

/-- Embedding of `CvsCell::new` (lines 108-113): stores `val` into a
fresh slot.  The `unsafe` marker concerns only the caller-enforced
no-parallel-sharing precondition and has no functional content. -/
def CvsCell.new {T : Type} (val : T) : CvsCell T :=
  { value := { inner := val } }

/-- Embedding of `CvsCell::set` (lines 125-128):
`self.value.get().write_volatile(val)` — a volatile write of `val` into
the storage slot.  The post-state cell holds `val`. -/
def CvsCell.set {T : Type} (_c : CvsCell T) (val : T) : CvsCell T :=
  { value := { inner := val } }

/-- Embedding of `CvsCell::into_inner` (lines 131-134): consumes the
cell and returns `self.value.into_inner()`. -/
def CvsCell.into_inner {T : Type} (c : CvsCell T) : T :=
  c.value.into_inner

/-- Embedding of `CvsCell::get` (lines 146-152):
`self.value.get().read_volatile()` — a volatile read returning a copy of
the current value; the slot is left unchanged. -/
def CvsCell.get {T : Type} (c : CvsCell T) : T :=
  c.value.inner

/-- Embedding of `CvsCell::update` (lines 167-175):
`let old = self.get(); self.set(f(old)); old`.  Returns the old value
together with the post-state cell. -/
def CvsCell.update {T : Type} (c : CvsCell T) (f : T → T) : T × CvsCell T :=
  let old := c.get
  (old, c.set (f old))

/-- Embedding of `CvsCell::as_ptr` (lines 187-190): `self.value.get()`
returns the raw address of the storage slot; `addr` is the address of
the cell (equal to the slot address by `#[repr(transparent)]`).  The
cell is neither read nor written. -/
def CvsCell.as_ptr {T : Type} (c : CvsCell T) (addr : Nat) : Nat × CvsCell T :=
  (addr, c)

/-- Modelled from the spec: `replace` is specified in §4.1 and §8 of the
spec but absent from src/src/lib.rs (only `new`, `set`, `into_inner`,
`get`, `update`, `as_ptr` appear there).  Per the spec's contract,
`replace(value)` "overwrites the stored value with `value` and returns
the value that was stored immediately prior", as a volatile read of the
old value followed by a volatile write of the new one. -/
def CvsCell.replace {T : Type} (c : CvsCell T) (val : T) : T × CvsCell T :=
  let old := c.value.inner
  (old, c.set val)

/-- Two successive `get` calls on the same cell with no intervening
write, returning both results. -/
def CvsCell.getTwice {T : Type} (c : CvsCell T) : T × T :=
  let x := c.get
  let y := c.get
  (x, y)

/-- The API surface of `impl<T> CvsCell<T>` (lines 88-191) as an
operation datatype, for claims quantifying over all operations. -/
inductive CvsOp (T : Type) where
  | new (val : T)
  | set (val : T)
  | get
  | update (f : T → T)
  | into_inner
  | as_ptr

/-- Result of one API call: unit (`set`), a value of `T` (`get`,
`update`, `into_inner`), a fresh cell (`new`), or a raw address
(`as_ptr`). -/
inductive CvsResult (T : Type) where
  | unit
  | val (v : T)
  | cell (c : CvsCell T)
  | ptr (addr : Nat)

/-- One API call on a live cell at address `addr`.  The outer `Option`
embeds Rust's panic/abort possibility (`none` = the call does not return
normally); the inner `Option (CvsCell T)` is the post-state, `none`
meaning the cell was consumed and no longer exists.  Each branch is the
translation of the corresponding method body. -/
def step {T : Type} (addr : Nat) (op : CvsOp T) (c : CvsCell T) :
    Option (CvsResult T × Option (CvsCell T)) :=
  match op with
  | .new v => some (.cell (CvsCell.new v), some c)
  | .set v => some (.unit, some (c.set v))
  | .get => some (.val c.get, some c)
  | .update f => some (.val (c.update f).1, some (c.update f).2)
  | .into_inner => some (.val c.into_inner, none)
  | .as_ptr => some (.ptr (c.as_ptr addr).1, some (c.as_ptr addr).2)

/-- Claim C1: `replace(v2)` on a cell holding `v1` returns `v1`, a
subsequent `get()` returns `v2`, and on any cell the `replace` output
equals the pre-call `get()`. -/
theorem replace_returns_old_and_stores_new (T : Type) (v1 v2 : T) (c : CvsCell T) :
    (CvsCell.replace (CvsCell.new v1) v2).1 = v1 ∧
    ((CvsCell.replace (CvsCell.new v1) v2).2).get = v2 ∧
    (CvsCell.replace c v2).1 = c.get :=
  ⟨rfl, rfl, rfl⟩

/-- Claim C2: `update(f)` on a cell holding `v` returns `v` and a
subsequent `get()` returns `f(v)`; concretely, on a cell holding `4`,
`update(|x| x * 2)` returns `4` and a subsequent `get()` returns `8`. -/
theorem update_returns_old_and_stores_f (T : Type) (f : T → T) (v : T) :
    (CvsCell.update (CvsCell.new v) f).1 = v ∧
    ((CvsCell.update (CvsCell.new v) f).2).get = f v ∧
    (CvsCell.update (CvsCell.new (4 : Nat)) (fun x => x * 2)).1 = 4 ∧
    ((CvsCell.update (CvsCell.new (4 : Nat)) (fun x => x * 2)).2).get = 8 :=
  ⟨rfl, rfl, rfl, rfl⟩

/-- Claim C3: after `set(v1)` then `set(v2)` on any cell, `get()`
returns `v2`. -/
theorem set_set_get (T : Type) (c : CvsCell T) (v1 v2 : T) :
    ((c.set v1).set v2).get = v2 :=
  rfl

/-- Claim C4: immediately after constructing a cell with `v`, `get()`
returns `v`. -/
theorem new_get (T : Type) (v : T) :
    (CvsCell.new v).get = v :=
  rfl

/-- Claim C5: `into_inner()` returns the value currently stored — the
initial value on a fresh cell, the last value written by `set`, and
`f(old)` after `update(f)` — and the `step` relation records that the
call consumes the cell (post-state `none`, so no further operation is
possible on it). -/
theorem into_inner_returns_stored (T : Type) (addr : Nat) (v v1 : T) (f : T → T)
    (c : CvsCell T) :
    (CvsCell.new v).into_inner = v ∧
    (c.set v1).into_inner = v1 ∧
    ((c.update f).2).into_inner = f c.get ∧
    step addr CvsOp.into_inner c = some (CvsResult.val c.into_inner, none) :=
  ⟨rfl, rfl, rfl, rfl⟩

/-- Claim C7: `get()` is idempotent and side-effect free — two
successive `get` calls with no intervening write return the same value,
and the `step` relation shows `get` leaves the cell state unchanged. -/
theorem get_idempotent_and_pure (T : Type) (addr : Nat) (c : CvsCell T) :
    (c.getTwice).1 = (c.getTwice).2 ∧
    step addr CvsOp.get c = some (CvsResult.val c.get, some c) :=
  ⟨rfl, rfl⟩

/-- Claim C8: no operation of the cell can fail at the API level — for
every operation, address and live cell state, `step` returns normally
(`some`), with no panic or error branch. -/
theorem ops_never_fail (T : Type) (addr : Nat) (op : CvsOp T) (c : CvsCell T) :
    (step addr op c).isSome = true := by
  cases op <;> rfl

/-- Claim C9: `as_ptr()` has no effect on observable state — the cell
(and hence the value `get` reads) is unchanged — and repeated calls on
the same cell return the same address, namely the address of the storage
slot itself (`addr`, which equals the slot address by
`#[repr(transparent)]`). -/
theorem as_ptr_frame (T : Type) (addr : Nat) (c : CvsCell T) :
    step addr CvsOp.as_ptr c = some (CvsResult.ptr addr, some c) ∧
    (c.as_ptr addr).2 = c ∧
    ((c.as_ptr addr).2).get = c.get ∧
    (((c.as_ptr addr).2).as_ptr addr).1 = (c.as_ptr addr).1 ∧
    (c.as_ptr addr).1 = addr :=
  ⟨rfl, rfl, rfl, rfl, rfl⟩

/-- Claim C10: every operation is deterministic — two runs of the same
operation from equal cell states and equal arguments produce equal
results and equal post-states. -/
theorem step_deterministic (T : Type) (addr : Nat) (op : CvsOp T)
    (c c' : CvsCell T) (h : c = c') :
    step addr op c = step addr op c' := by
  rw [h]

/-- Witness for C10 at a concrete input: two runs of `set 5` from equal
cells holding `3` coincide. -/
theorem step_deterministic_witness :
    CvsCell.new (3 : Nat) = CvsCell.new 3 ∧
    step 0 (CvsOp.set (5 : Nat)) (CvsCell.new 3) =
      step 0 (CvsOp.set 5) (CvsCell.new 3) :=
  ⟨rfl, step_deterministic Nat 0 (CvsOp.set 5) (CvsCell.new 3) (CvsCell.new 3) rfl⟩
